import Mathlib

/-!
Verification of `bot.py` (schedule bot): day parsing, schedule formatting,
per-user week selection, and the command handlers, shallowly embedded in Lean.

The module `schedule_data` (providing `get_schedule`, `DAY_NAMES`,
`DAY_NAMES_SHORT`) is not part of the sources; those pieces are modelled
from the spec (§4.1, §3) and the schedule store is kept abstract as a
function parameter wherever a claim quantifies over its contents.
-/

namespace ScheduleBot

/-- Model of the whitespace class stripped by Python `str.strip()`
(restricted to the ASCII whitespace characters; the canonical day tokens
contain none of the exotic Unicode space characters, so this restriction
does not affect any claim). -/
def is_py_space (c : Char) : Bool :=
  c = ' ' || c = '\t' || c = '\n' || c = '\r' || c = '\x0b' || c = '\x0c'

/-- Model of Python `str.strip()`: drop leading and trailing whitespace. -/
def py_strip (s : String) : String :=
  String.mk (((s.data.dropWhile is_py_space).reverse.dropWhile is_py_space).reverse)

/-- Model of Python `str.lower()` on one character, covering ASCII letters
and the Cyrillic block actually reachable from the bot's vocabulary
(А..Я U+0410–U+042F and Ё U+0401). Other characters are left unchanged. -/
def py_lower_char (c : Char) : Char :=
  if 'A' ≤ c ∧ c ≤ 'Z' then Char.ofNat (c.toNat + 32)
  else if 'А' ≤ c ∧ c ≤ 'Я' then Char.ofNat (c.toNat + 32)
  else if c = 'Ё' then 'ё'
  else c

/-- Model of Python `str.lower()`. -/
def py_lower (s : String) : String :=
  String.mk (s.data.map py_lower_char)

/-- Modelled from the spec: `DAY_NAMES_SHORT` is imported from the missing
module `schedule_data`; per the spec each day index "must map to exactly one
of 7 canonical short names", the same tokens `parse_day_arg` accepts. -/
def DAY_NAMES_SHORT : List String :=
  ["пн", "вт", "ср", "чт", "пт", "сб", "вс"]

/-- Modelled from the spec: `DAY_NAMES` is imported from the missing module
`schedule_data`; the spec requires one full day name per day index 0–6
(Monday=0 .. Sunday=6). -/
def DAY_NAMES : List String :=
  ["Понедельник", "Вторник", "Среда", "Четверг", "Пятница", "Суббота", "Воскресенье"]

/-- The `for i, name in enumerate(short): if name == arg: return i` loop of
`parse_day_arg` (bot.py lines 93–96). -/
def find_day (tokens : List String) (a : String) (i : Nat) : Option Nat :=
  match tokens with
  | [] => none
  | t :: ts => if t = a then some i else find_day ts a (i + 1)

/-- `parse_day_arg` (bot.py lines 89–96): normalise the argument with
`strip().lower()` and scan the fixed tuple of short day tokens. -/
def parse_day_arg (arg : String) : Option Nat :=
  find_day ["пн", "вт", "ср", "чт", "пт", "сб", "вс"] (py_lower (py_strip arg)) 0

/-- The per-user session state: `context.user_data` holds, for each user,
an optional `"week"` entry (`none` models the key being absent). -/
def Session : Type := Nat → Option Nat

/-- Fresh process state: no user has a `"week"` entry yet. -/
def empty_session : Session := fun _ => none

/-- `DEFAULT_WEEK = 1` (bot.py line 24). -/
def DEFAULT_WEEK : Nat := 1

/-- `get_user_week` (bot.py lines 27–29):
`context.user_data.get("week", DEFAULT_WEEK)`. -/
def get_user_week (s : Session) (u : Nat) : Nat :=
  (s u).getD DEFAULT_WEEK

/-- The dictionary write `context.user_data["week"] = w` for user `u`. -/
def set_week (s : Session) (u w : Nat) : Session :=
  fun v => if v = u then some w else s v

/-- `week_callback` (bot.py lines 64–74): on callback data `"week_1"` store
week 1, on anything else store week 2; returns the updated session and the
confirmation text sent via `edit_message_text`. -/
def week_callback (s : Session) (u : Nat) (data : String) : Session × String :=
  if data = "week_1" then (set_week s u 1, "Выбрана **I неделя**.")
  else (set_week s u 2, "Выбрана **II неделя**.")

/-- The abstract Schedule Store. Modelled from the spec: `get_schedule` lives
in the missing module `schedule_data`; per spec §4.1 it is a pure function
`(week, day) -> DaySchedule`, returning an ordered list of
(startTime, subject) pairs, empty when no lessons are defined. Theorems
quantify over it. -/
def Sched : Type := Nat → Nat → List (String × String)

/-- `format_day_schedule` (bot.py lines 77–86). The Python tuple indexing
`DAY_NAMES[day]` / `DAY_NAMES_SHORT[day]` raises `IndexError` out of range;
this is modelled by `List.get?`, with `none` meaning an exception escapes. -/
def format_day_schedule (sched : Sched) (week_num day : Nat) : Option String :=
  let lessons := sched week_num day
  match DAY_NAMES.get? day, DAY_NAMES_SHORT.get? day with
  | some day_name, some short_name =>
    let week_label := if week_num = 1 then "I" else "II"
    let header := "📅 " ++ day_name ++ " (" ++ short_name ++ "), " ++ week_label ++ " неделя\n\n"
    if lessons = [] then
      some (header ++ "Занятий нет.")
    else
      some (header ++ String.intercalate "\n\n"
        (lessons.map (fun p => "🕐 " ++ p.1 ++ "\n   " ++ p.2)))
  | _, _ => none

/-- The reply of bot.py lines 109–111 for an unparseable day argument. -/
def USAGE_MSG : String :=
  "Неизвестный день. Напиши: /rasp пн, /rasp вт, /rasp ср, /rasp чт, /rasp пт, /rasp сб, /rasp вс"

/-- `rasp_command` (bot.py lines 99–117). `today` stands for
`datetime.now().weekday()` (0–6), passed in explicitly. The result pairs
the (unchanged) session with the reply text; a `none` reply models an
uncaught exception. -/
def rasp_command (sched : Sched) (s : Session) (u : Nat)
    (args : List String) (today : Nat) : Session × Option String :=
  let week := get_user_week s u
  match args with
  | arg0 :: _ =>
    match parse_day_arg arg0 with
    | none => (s, some USAGE_MSG)
    | some day => (s, format_day_schedule sched week day)
  | [] => (s, format_day_schedule sched week today)

/-- The inbound events the dispatcher (bot.py lines 140–144) routes:
the four commands and the week-selection button press. -/
inductive BotEvent
  | start_cmd (u : Nat)
  | week_cmd (u : Nat)
  | help_cmd (u : Nat)
  | rasp (u : Nat) (args : List String) (today : Nat)
  | week_button (u : Nat) (data : String)

/-- Effect of one handled update on the session state. `start`,
`week_command`, `help_command` (bot.py lines 32–61, 120–129) only read
`user_data`; `rasp_command` returns its session component; only
`week_callback` writes. -/
def handle (sched : Sched) (s : Session) : BotEvent → Session
  | .start_cmd _ => s
  | .week_cmd _ => s
  | .help_cmd _ => s
  | .rasp u args today => (rasp_command sched s u args today).1
  | .week_button u data => (week_callback s u data).1

/-- Outcome of `main` (bot.py lines 132–147): either startup aborts with
diagnostics and no application is built, or the event loop is entered. -/
inductive MainResult
  | aborted (diagnostics : List String)
  | started
deriving DecidableEq

/-- `main` (bot.py lines 132–147): `if not BOT_TOKEN` (empty string is
falsy) print two diagnostic lines and return; otherwise build the
application and run polling. -/
def main (bot_token : String) : MainResult :=
  if bot_token = "" then
    .aborted ["Ошибка: нужен токен бота.",
              "Создай бота у @BotFather в Telegram и задай TELEGRAM_BOT_TOKEN в .env"]
  else
    .started

/-! ## Helper lemmas -/

lemma parse_day_arg_spec (s : String) :
    (∀ i : Nat, parse_day_arg s = some i ↔
        i < 7 ∧ py_lower (py_strip s) = DAY_NAMES_SHORT.getD i "")
    ∧ (parse_day_arg s = none ↔
        ∀ i : Nat, i < 7 → py_lower (py_strip s) ≠ DAY_NAMES_SHORT.getD i "") := by
  unfold parse_day_arg
  generalize py_lower (py_strip s) = a
  simp only [find_day, DAY_NAMES_SHORT]
  split_ifs with h0 h1 h2 h3 h4 h5 h6 <;> try subst_eqs
  all_goals refine ⟨fun i => ⟨fun h => ?_, fun hiff => ?_⟩, ⟨fun h => ?_, fun hall => ?_⟩⟩
  all_goals first
    | rfl
    | (injection h with hk; subst hk; decide)
    | (obtain ⟨hi, he⟩ := hiff
       interval_cases i <;>
         first
         | rfl
         | exact absurd he (by decide)
         | exact absurd he.symm h0
         | exact absurd he.symm h1
         | exact absurd he.symm h2
         | exact absurd he.symm h3
         | exact absurd he.symm h4
         | exact absurd he.symm h5
         | exact absurd he.symm h6)
    | (intro i hi he
       interval_cases i <;>
         first
         | exact absurd he.symm h0
         | exact absurd he.symm h1
         | exact absurd he.symm h2
         | exact absurd he.symm h3
         | exact absurd he.symm h4
         | exact absurd he.symm h5
         | exact absurd he.symm h6)
    | cases h
    | exact (hall 0 (by decide) (by decide)).elim
    | exact (hall 1 (by decide) (by decide)).elim
    | exact (hall 2 (by decide) (by decide)).elim
    | exact (hall 3 (by decide) (by decide)).elim
    | exact (hall 4 (by decide) (by decide)).elim
    | exact (hall 5 (by decide) (by decide)).elim
    | exact (hall 6 (by decide) (by decide)).elim

lemma parse_day_arg_lt7 {a : String} {d : Nat} (h : parse_day_arg a = some d) : d < 7 :=
  (((parse_day_arg_spec a).1 d).mp h).1

lemma rasp_command_fst (sched : Sched) (s : Session) (u : Nat)
    (args : List String) (today : Nat) :
    (rasp_command sched s u args today).1 = s := by
  unfold rasp_command
  cases args with
  | nil => rfl
  | cons a rest => cases hpa : parse_day_arg a <;> simp [hpa]

lemma string_data_append (a b : String) : (a ++ b).data = a.data ++ b.data := rfl

/-- `t` occurs as a contiguous substring of `s`. -/
def str_contains (s t : String) : Prop :=
  ∃ p q : List Char, s.data = p ++ (t.data ++ q)

lemma format_day_schedule_eq (sched : Sched) (week day : Nat) (hd : day < 7) :
    format_day_schedule sched week day =
      some (("📅 " ++ DAY_NAMES.getD day "" ++ " (" ++ DAY_NAMES_SHORT.getD day ""
          ++ "), " ++ (if week = 1 then "I" else "II") ++ " неделя\n\n")
        ++ (if sched week day = [] then "Занятий нет."
            else String.intercalate "\n\n"
              ((sched week day).map (fun p => "🕐 " ++ p.1 ++ "\n   " ++ p.2)))) := by
  by_cases hl : sched week day = [] <;>
    interval_cases day <;>
      simp_all [format_day_schedule, DAY_NAMES, DAY_NAMES_SHORT]

lemma format_day_schedule_isSome (sched : Sched) (week day : Nat) (hd : day < 7) :
    (format_day_schedule sched week day) ≠ none := by
  rw [format_day_schedule_eq sched week day hd]
  exact Option.some_ne_none _

/-- The week-selection invariant: every stored week entry is 1 or 2. -/
def WeekInv (s : Session) : Prop :=
  ∀ u w, s u = some w → w = 1 ∨ w = 2

lemma week_callback_fst (s : Session) (u : Nat) (data : String) :
    (week_callback s u data).1 = set_week s u (if data = "week_1" then 1 else 2) := by
  unfold week_callback
  split_ifs <;> rfl

lemma handle_week_inv (sched : Sched) (s : Session) (e : BotEvent)
    (h : WeekInv s) : WeekInv (handle sched s e) := by
  cases e with
  | start_cmd u => exact h
  | week_cmd u => exact h
  | help_cmd u => exact h
  | rasp u args today =>
    rw [handle, rasp_command_fst]
    exact h
  | week_button u0 data =>
    intro v w hv
    rw [handle, week_callback_fst] at hv
    unfold set_week at hv
    split_ifs at hv <;>
      first
      | (injection hv with hv; omega)
      | exact h v w hv

/-! ## Claim theorems -/

/-- C1: `parse_day_arg` returns day index `i` exactly when the input, after
stripping whitespace and lowercasing, equals the i-th canonical token of
("пн","вт","ср","чт","пт","сб","вс"), and returns `none` (including on the
empty string) exactly when the normalised input matches no token: no
partial or fuzzy matches succeed. -/
theorem parse_day_arg_exact_match (s : String) :
    (∀ i : Nat, parse_day_arg s = some i ↔
        i < 7 ∧ py_lower (py_strip s) = DAY_NAMES_SHORT.getD i "")
    ∧ (parse_day_arg s = none ↔
        ∀ i : Nat, i < 7 → py_lower (py_strip s) ≠ DAY_NAMES_SHORT.getD i "") :=
  parse_day_arg_spec s

theorem parse_day_arg_exact_match_witness :
    parse_day_arg " СР " = some 2 ∧ parse_day_arg "" = none :=
  ⟨((parse_day_arg_exact_match " СР ").1 2).mpr (by decide),
   (parse_day_arg_exact_match "").2.mpr (by decide)⟩

/-- C2: for every week ∈ {1,2} and day ∈ [0,6], `format_day_schedule`
succeeds (no exception) and its output contains the full day name
`DAY_NAMES[day]`, the short code `DAY_NAMES_SHORT[day]`, and the week label
"I" for week 1 and "II" for week 2. -/
theorem format_day_schedule_contains (sched : Sched) (week day : Nat)
    (hw : week = 1 ∨ week = 2) (hd : day ≤ 6) :
    ∃ out, format_day_schedule sched week day = some out
      ∧ str_contains out (DAY_NAMES.getD day "")
      ∧ str_contains out (DAY_NAMES_SHORT.getD day "")
      ∧ str_contains out (if week = 1 then "I" else "II") := by
  refine ⟨_, format_day_schedule_eq sched week day (by omega), ?_, ?_, ?_⟩
  · refine ⟨"📅 ".data,
      ((" (" ++ DAY_NAMES_SHORT.getD day "" ++ "), "
          ++ (if week = 1 then "I" else "II") ++ " неделя\n\n")
        ++ (if sched week day = [] then "Занятий нет."
            else String.intercalate "\n\n"
              ((sched week day).map (fun p => "🕐 " ++ p.1 ++ "\n   " ++ p.2)))).data, ?_⟩
    simp [string_data_append, List.append_assoc]
  · refine ⟨("📅 " ++ DAY_NAMES.getD day "" ++ " (").data,
      (("), " ++ (if week = 1 then "I" else "II") ++ " неделя\n\n")
        ++ (if sched week day = [] then "Занятий нет."
            else String.intercalate "\n\n"
              ((sched week day).map (fun p => "🕐 " ++ p.1 ++ "\n   " ++ p.2)))).data, ?_⟩
    simp [string_data_append, List.append_assoc]
  · refine ⟨("📅 " ++ DAY_NAMES.getD day "" ++ " (" ++ DAY_NAMES_SHORT.getD day "" ++ "), ").data,
      (" неделя\n\n"
        ++ (if sched week day = [] then "Занятий нет."
            else String.intercalate "\n\n"
              ((sched week day).map (fun p => "🕐 " ++ p.1 ++ "\n   " ++ p.2)))).data, ?_⟩
    simp [string_data_append, List.append_assoc]

theorem format_day_schedule_contains_witness :
    ((1 : Nat) = 1 ∨ (1 : Nat) = 2) ∧ (2 : Nat) ≤ 6
    ∧ ∃ out, format_day_schedule (fun _ _ => []) 1 2 = some out
      ∧ str_contains out (DAY_NAMES.getD 2 "")
      ∧ str_contains out (DAY_NAMES_SHORT.getD 2 "")
      ∧ str_contains out (if (1 : Nat) = 1 then "I" else "II") :=
  ⟨Or.inl rfl, by omega,
   format_day_schedule_contains (fun _ _ => []) 1 2 (Or.inl rfl) (by omega)⟩

/-- C3: a user with no stored week gets week 1 by default; after the
week-selection callback runs for user `u`, `get_user_week` returns the
value the callback stored (1 for callback data `"week_1"`, else 2), and
every other user's stored entry is untouched. -/
theorem get_user_week_default_and_set (s : Session) (u v : Nat) (data : String) :
    (s u = none → get_user_week s u = 1)
    ∧ get_user_week ((week_callback s u data).1) u = (if data = "week_1" then 1 else 2)
    ∧ (v ≠ u → (week_callback s u data).1 v = s v) := by
  refine ⟨fun h => ?_, ?_, fun hv => ?_⟩
  · simp [get_user_week, h, DEFAULT_WEEK]
  · unfold week_callback
    split_ifs <;> simp [get_user_week, set_week]
  · unfold week_callback
    split_ifs <;> simp [set_week, hv]

theorem get_user_week_default_and_set_witness :
    (empty_session 3 = none ∧ get_user_week empty_session 3 = 1)
    ∧ get_user_week ((week_callback empty_session 3 "week_2").1) 3 = 2
    ∧ ((4 : Nat) ≠ 3 ∧ (week_callback empty_session 3 "week_2").1 4 = empty_session 4) :=
  ⟨⟨rfl, (get_user_week_default_and_set empty_session 3 4 "week_2").1 rfl⟩,
   (get_user_week_default_and_set empty_session 3 4 "week_2").2.1,
   ⟨by decide, (get_user_week_default_and_set empty_session 3 4 "week_2").2.2 (by decide)⟩⟩

/-- C4: when the first `/rasp` argument fails to parse, the handler replies
with exactly the usage message enumerating the seven valid tokens (no
schedule text); moreover on every argument list the handler leaves the
session unchanged and never produces an exceptional (absent) reply. -/
theorem rasp_command_bad_token (sched : Sched) (s : Session) (u : Nat)
    (a : String) (rest : List String) (today : Nat)
    (hp : parse_day_arg a = none) (ht : today ≤ 6) :
    rasp_command sched s u (a :: rest) today = (s, some USAGE_MSG)
    ∧ (∀ args : List String, (rasp_command sched s u args today).1 = s
        ∧ (rasp_command sched s u args today).2 ≠ none) := by
  constructor
  · simp [rasp_command, hp]
  · intro args
    refine ⟨rasp_command_fst sched s u args today, ?_⟩
    unfold rasp_command
    cases args with
    | nil =>
      simpa using format_day_schedule_isSome sched (get_user_week s u) today (by omega)
    | cons a0 r =>
      cases hpa : parse_day_arg a0 with
      | none => simp [hpa]
      | some d =>
        simpa [hpa] using
          format_day_schedule_isSome sched (get_user_week s u) d (parse_day_arg_lt7 hpa)

theorem rasp_command_bad_token_witness :
    parse_day_arg "хд" = none ∧ (3 : Nat) ≤ 6
    ∧ rasp_command (fun _ _ => []) empty_session 1 ["хд"] 3 = (empty_session, some USAGE_MSG) :=
  ⟨by decide, by omega,
   (rasp_command_bad_token (fun _ _ => []) empty_session 1 "хд" [] 3 (by decide) (by omega)).1⟩

/-- C5: for valid (week, day) the formatter's output is exactly the header
(full day name, short code, week label) followed by the no-lessons text
when the store is empty for that slot, and otherwise one time/subject block
per entry in stored order, joined by blank lines. -/
theorem format_day_schedule_structure (sched : Sched) (week day : Nat)
    (hw : week = 1 ∨ week = 2) (hd : day ≤ 6) :
    format_day_schedule sched week day =
      some (("📅 " ++ DAY_NAMES.getD day "" ++ " (" ++ DAY_NAMES_SHORT.getD day ""
          ++ "), " ++ (if week = 1 then "I" else "II") ++ " неделя\n\n")
        ++ (if sched week day = [] then "Занятий нет."
            else String.intercalate "\n\n"
              ((sched week day).map (fun p => "🕐 " ++ p.1 ++ "\n   " ++ p.2)))) :=
  format_day_schedule_eq sched week day (by omega)

theorem format_day_schedule_structure_witness :
    ((2 : Nat) = 1 ∨ (2 : Nat) = 2) ∧ (0 : Nat) ≤ 6
    ∧ format_day_schedule (fun _ _ => [("08:30", "Матанализ")]) 2 0 =
      some (("📅 " ++ DAY_NAMES.getD 0 "" ++ " (" ++ DAY_NAMES_SHORT.getD 0 ""
          ++ "), " ++ (if (2 : Nat) = 1 then "I" else "II") ++ " неделя\n\n")
        ++ (if ([("08:30", "Матанализ")] : List (String × String)) = [] then "Занятий нет."
            else String.intercalate "\n\n"
              (([("08:30", "Матанализ")] : List (String × String)).map
                (fun p => "🕐 " ++ p.1 ++ "\n   " ++ p.2)))) :=
  ⟨Or.inr rfl, by omega,
   format_day_schedule_structure (fun _ _ => [("08:30", "Матанализ")]) 2 0 (Or.inr rfl) (by omega)⟩

/-- C6: starting from a fresh session, after any sequence of handled
commands and button presses every stored week is 1 or 2 (only the
week-selection callback writes, and it writes only 1 or 2); and no handler
ever unsets a stored week. -/
theorem session_week_invariant (sched : Sched) :
    (∀ events : List BotEvent,
        WeekInv (events.foldl (handle sched) empty_session))
    ∧ (∀ (s : Session) (e : BotEvent) (u : Nat),
        (s u).isSome = true → ((handle sched s e) u).isSome = true) := by
  constructor
  · have gen : ∀ (events : List BotEvent) (s : Session), WeekInv s →
        WeekInv (events.foldl (handle sched) s) := by
      intro events
      induction events with
      | nil => exact fun s h => h
      | cons e es ih => exact fun s h => ih _ (handle_week_inv sched s e h)
    intro events
    refine gen events empty_session fun u w h => ?_
    simp [empty_session] at h
  · intro s e u h
    cases e with
    | start_cmd v => exact h
    | week_cmd v => exact h
    | help_cmd v => exact h
    | rasp v args today =>
      rw [handle, rasp_command_fst]
      exact h
    | week_button u0 data =>
      rw [handle, week_callback_fst]
      unfold set_week
      split_ifs <;> simp_all

theorem session_week_invariant_witness :
    WeekInv ([BotEvent.week_button 3 "week_2",
              BotEvent.rasp 3 ["пн"] 0].foldl (handle (fun _ _ => [])) empty_session)
    ∧ ((set_week empty_session 3 2) 3).isSome = true
    ∧ ((handle (fun _ _ => []) (set_week empty_session 3 2) (BotEvent.start_cmd 3)) 3).isSome
        = true :=
  ⟨(session_week_invariant (fun _ _ => [])).1 _, rfl,
   (session_week_invariant (fun _ _ => [])).2 (set_week empty_session 3 2)
     (BotEvent.start_cmd 3) 3 rfl⟩

/-- C7: with an empty bot token, `main` emits the two diagnostic lines and
returns without building the application or entering the event loop; with a
nonempty token it proceeds to start. -/
theorem main_missing_token_fatal :
    main "" = .aborted ["Ошибка: нужен токен бота.",
        "Создай бота у @BotFather в Telegram и задай TELEGRAM_BOT_TOKEN в .env"]
    ∧ ∀ t : String, t ≠ "" → main t = .started := by
  refine ⟨rfl, fun t ht => ?_⟩
  simp [main, ht]

theorem main_missing_token_fatal_witness :
    ("abc" : String) ≠ "" ∧ main "abc" = .started :=
  ⟨by decide, main_missing_token_fatal.2 "abc" (by decide)⟩

/-- C8: `/rasp` with no argument on a date whose weekday index is `d`
produces exactly the state and reply of `/rasp <token d>`: both paths
format the same (week, day) for the selected week. -/
theorem rasp_command_no_arg_eq_token (sched : Sched) (s : Session) (u : Nat)
    (d : Fin 7) (t : Nat) :
    rasp_command sched s u [] d.val
      = rasp_command sched s u [DAY_NAMES_SHORT.getD d.val ""] t := by
  fin_cases d <;> rfl

/-- C9: `format_day_schedule` is a pure function of its arguments and the
schedule store: two calls with identical arguments return identical
strings. -/
theorem format_day_schedule_deterministic (sched : Sched) (w d w2 d2 : Nat)
    (hw : w = w2) (hd : d = d2) :
    format_day_schedule sched w d = format_day_schedule sched w2 d2 := by
  subst hw; subst hd; rfl

theorem format_day_schedule_deterministic_witness :
    format_day_schedule (fun _ _ => []) 1 0 = format_day_schedule (fun _ _ => []) 1 0 :=
  format_day_schedule_deterministic (fun _ _ => []) 1 0 1 0 rfl rfl

/-- C10: any callback data carrying the `week_` prefix other than exactly
`"week_1"` (e.g. `"week_x"`, not only `"week_2"`) stores week 2 for the
invoking user and confirms week II; only the exact string `"week_1"`
selects week 1. -/
theorem week_callback_nondefault_is_two (s : Session) (u : Nat) (data : String)
    (hpre : ∃ rest, data = "week_" ++ rest) (hne : data ≠ "week_1") :
    (week_callback s u data).1 = set_week s u 2
    ∧ get_user_week ((week_callback s u data).1) u = 2
    ∧ (week_callback s u data).2 = "Выбрана **II неделя**." := by
  simp [week_callback, hne, get_user_week, set_week]

theorem week_callback_nondefault_is_two_witness :
    ((∃ rest, ("week_x" : String) = "week_" ++ rest) ∧ ("week_x" : String) ≠ "week_1")
    ∧ (week_callback empty_session 3 "week_x").1 = set_week empty_session 3 2
    ∧ get_user_week ((week_callback empty_session 3 "week_x").1) 3 = 2
    ∧ (week_callback empty_session 3 "week_x").2 = "Выбрана **II неделя**." :=
  ⟨⟨⟨"x", rfl⟩, by decide⟩,
   week_callback_nondefault_is_two empty_session 3 "week_x" ⟨"x", rfl⟩ (by decide)⟩

end ScheduleBot
